import Mathlib

/-!
Verification development for the FromChat real-time messaging core.

The definitions below are shallow embeddings of the Python sources:
`backend/routes/messaging.py`, `backend/security/profanity.py`,
`backend/services/messaging/files/websocket/handlers.py` and
`backend/shared/models.py`.  Machine strings are Lean `String`s
(lists of Unicode scalar values), database tables are Lean lists or
finite sets, and the asynchronous session manager is modelled as an
explicit state record with the handlers as state-transition functions.
External library calls (the `better_profanity` matcher, `difflib`'s
`SequenceMatcher`, `hashlib.md5`) are taken as function parameters of
the embedded operations; everything written in the repository itself is
translated directly.
-/

namespace FromChat

/-! ## Character-level utilities

Models of the Python `str` methods used by the filter.  The repository
processes ASCII, Cyrillic (U+0400–U+04FF), Greek (U+0370–U+03FF),
full-width (U+FF10–U+FF5A) characters, whitespace and zero-width
characters; the models below implement Python's `isalnum`, `lower`,
`casefold` and `isspace` on exactly that repertoire.  All of those
characters are NFKC-stable single scalars without combining marks, so
`unicodedata.normalize("NFKC", ·)` is the identity on the modelled
inputs and is not represented separately. -/

/-- Model of Python `str.isalnum` on the repertoire used by the filter. -/
def py_is_alnum (c : Char) : Bool :=
  ('0' ≤ c && c ≤ '9') || ('a' ≤ c && c ≤ 'z') || ('A' ≤ c && c ≤ 'Z') ||
  (Char.ofNat 0x0370 ≤ c && c ≤ Char.ofNat 0x03FF) ||
  (Char.ofNat 0x0400 ≤ c && c ≤ Char.ofNat 0x04FF) ||
  (Char.ofNat 0xFF10 ≤ c && c ≤ Char.ofNat 0xFF19) ||
  (Char.ofNat 0xFF21 ≤ c && c ≤ Char.ofNat 0xFF3A) ||
  (Char.ofNat 0xFF41 ≤ c && c ≤ Char.ofNat 0xFF5A)

/-- Model of Python `str.isspace` on the whitespace characters the
repository can meet (ASCII whitespace and the common Unicode spaces). -/
def py_is_space (c : Char) : Bool :=
  c == ' ' || c == '\t' || c == '\n' || c == '\r' ||
  c == Char.ofNat 0x0B || c == Char.ofNat 0x0C || c == Char.ofNat 0xA0 ||
  (Char.ofNat 0x2000 ≤ c && c ≤ Char.ofNat 0x200A) || c == Char.ofNat 0x3000

/-- Model of Python `str.lower` (and, on this repertoire, `str.casefold`)
for a single character: ASCII, Cyrillic, Greek and full-width Latin
uppercase letters map to their lowercase forms. -/
def py_to_lower (c : Char) : Char :=
  if 'A' ≤ c && c ≤ 'Z' then Char.ofNat (c.toNat + 32)
  else if Char.ofNat 0x0410 ≤ c && c ≤ Char.ofNat 0x042F then Char.ofNat (c.toNat + 32)
  else if Char.ofNat 0x0400 ≤ c && c ≤ Char.ofNat 0x040F then Char.ofNat (c.toNat + 80)
  else if c == Char.ofNat 0x04AE then Char.ofNat 0x04AF
  else if (Char.ofNat 0x0391 ≤ c && c ≤ Char.ofNat 0x03A1) ||
          (Char.ofNat 0x03A3 ≤ c && c ≤ Char.ofNat 0x03AB) then Char.ofNat (c.toNat + 32)
  else if Char.ofNat 0xFF21 ≤ c && c ≤ Char.ofNat 0xFF3A then Char.ofNat (c.toNat + 32)
  else c

/-- Lowercase an entire string, modelling Python `str.lower`. -/
def lower_str (s : String) : String := ⟨s.data.map py_to_lower⟩

/-! ## Profanity filter (`backend/security/profanity.py`) -/

/-- `_CUSTOM_RU_TERMS` from `profanity.py` (the Python set literal lists
"ебаная" twice; a set holds it once). -/
def custom_ru_terms : List String :=
  ["бляд", "блять", "бля", "сука", "суки", "сучка", "мразь", "ебан",
   "ебать", "ебёт", "ебет", "ебаная", "уёбок", "уебок", "уебище", "пизда",
   "пиздец", "пизд", "хуй", "хуя", "хуе", "хуё", "хуйня", "хер", "гондон",
   "долбоёб", "долбоеб", "дебил", "член", "проститутка", "проститутки",
   "урод", "хуесос", "хуесосы", "хуесосов", "хуесоса", "пидор",
   "пидоры", "пидорас", "пидорасы", "пидорасов"]

/-- `_ADULT_TERMS` from `profanity.py`. -/
def adult_terms : List String :=
  ["порно", "порнуха", "эротика", "эротический", "секс", "сексуальный",
   "инцест", "порнография", "порностудия", "порновидео", "порносайт",
   "сексчат", "сексчатик", "секслайв", "сексвидео"]

/-- `_STATIC_TERMS = set(term.lower() for term in CUSTOM ∪ ADULT)`.
Modelled as a list; every consumer of the set is order-insensitive. -/
def static_terms : List String := (custom_ru_terms ++ adult_terms).map lower_str

/-- `_WHITELIST` from `profanity.py`. -/
def whitelist_terms : List String := ["говно"]

/-- `_LEET_MAP` from `profanity.py`, transcribed entry for entry
(the dict lists the identity entry for 'н' twice; a dict holds it once). -/
def leet_map : List (Char × Char) :=
  [('0', 'о'), ('1', 'и'), ('3', 'е'), ('4', 'а'),
   ('a', 'а'), ('c', 'с'), ('e', 'е'), ('f', 'ф'), ('g', 'г'), ('i', 'и'),
   ('m', 'м'), ('n', 'н'), ('o', 'о'), ('p', 'п'), ('s', 'с'), ('t', 'т'),
   ('u', 'у'), ('v', 'в'), ('x', 'х'), ('y', 'у'), ('z', 'з'),
   ('A', 'а'), ('C', 'с'), ('E', 'е'), ('F', 'ф'), ('G', 'г'), ('I', 'и'),
   ('M', 'м'), ('N', 'н'), ('O', 'о'), ('P', 'п'), ('S', 'с'), ('T', 'т'),
   ('U', 'у'), ('V', 'в'), ('X', 'х'), ('Y', 'у'), ('Z', 'з'),
   ('α', 'а'), ('Α', 'а'), ('ο', 'о'), ('Ο', 'о'), ('ρ', 'р'), ('Ρ', 'р'),
   ('υ', 'у'), ('Υ', 'у'), ('χ', 'х'), ('Χ', 'х'), ('ε', 'е'), ('Ε', 'е'),
   ('ι', 'и'), ('Ι', 'и'), ('ν', 'н'), ('Ν', 'н'), ('μ', 'м'), ('Μ', 'м'),
   ('π', 'п'), ('Π', 'п'), ('τ', 'т'), ('Τ', 'т'), ('γ', 'г'), ('Γ', 'г'),
   ('σ', 'с'), ('Σ', 'с'), ('φ', 'ф'), ('Φ', 'ф'),
   ('ａ', 'а'), ('Ａ', 'а'), ('ｃ', 'с'), ('Ｃ', 'с'), ('ｅ', 'е'), ('Ｅ', 'е'),
   ('ｆ', 'ф'), ('Ｆ', 'ф'), ('ｇ', 'г'), ('Ｇ', 'г'), ('ｉ', 'и'), ('Ｉ', 'и'),
   ('ｍ', 'м'), ('Ｍ', 'м'), ('ｎ', 'н'), ('Ｎ', 'н'), ('ｏ', 'о'), ('Ｏ', 'о'),
   ('ｐ', 'п'), ('Ｐ', 'п'), ('ｓ', 'с'), ('Ｓ', 'с'), ('ｔ', 'т'), ('Ｔ', 'т'),
   ('ｕ', 'у'), ('Ｕ', 'у'), ('ｖ', 'в'), ('Ｖ', 'в'), ('ｘ', 'х'), ('Ｘ', 'х'),
   ('ｙ', 'у'), ('Ｙ', 'у'), ('ｚ', 'з'), ('Ｚ', 'з'),
   ('а', 'а'), ('с', 'с'), ('е', 'е'), ('ё', 'е'), ('ф', 'ф'), ('г', 'г'),
   ('и', 'и'), ('м', 'м'), ('н', 'н'), ('о', 'о'), ('п', 'п'), ('т', 'т'),
   ('у', 'у'), ('ү', 'у'), ('Ү', 'у'), ('в', 'в'), ('х', 'х'), ('р', 'р'),
   ('з', 'з'), ('д', 'д'), ('б', 'б'), ('л', 'л'), ('я', 'я'),
   ('@', 'а')]

/-- Dictionary lookup in `_LEET_MAP`. -/
def leet_lookup (c : Char) : Option Char :=
  (leet_map.find? (fun p => p.1 == c)).map (fun p => p.2)

/-- `_normalize_char` from `profanity.py`: direct table hit, then a hit on
the lowercased character, otherwise the lowercase form (the source's last
two branches both return `lower`). -/
def normalize_char (c : Char) : Char :=
  match leet_lookup c with
  | some m => m
  | none =>
    match leet_lookup (py_to_lower c) with
    | some m => m
    | none => py_to_lower c

/-- `_normalize_token` from `profanity.py`. -/
def normalize_token (s : String) : String := ⟨s.data.map normalize_char⟩

/-- The zero-width characters listed in `_strip_zero_width_chars`. -/
def zero_width_chars : List Char :=
  [Char.ofNat 0x200B, Char.ofNat 0x200C, Char.ofNat 0x200D, Char.ofNat 0xFEFF,
   Char.ofNat 0x2060, Char.ofNat 0x2061, Char.ofNat 0x2062, Char.ofNat 0x2063,
   Char.ofNat 0x2064]

/-- `_strip_zero_width_chars`: the source replaces each listed character by
the empty string, which is the same as filtering them all out. -/
def strip_zero_width_chars (l : List Char) : List Char :=
  l.filter (fun c => !(zero_width_chars.contains c))

/-- `_extract_alphanumeric_with_mapping(text, preserve_spaces=False)`,
first component (the position map is discarded by every caller modelled
here): NFKC (identity on the modelled repertoire), strip the zero-width
characters, keep only the alphanumeric characters and normalize each one. -/
def extract_alphanumeric (text : String) : String :=
  ⟨((strip_zero_width_chars text.data).filter py_is_alnum).map normalize_char⟩

/-! ### Phrase patterns (`_PHRASE_PATTERNS`)

The eight compiled regexes consist only of literal words, the character
class `[ао]`, the separator `\s+` and word boundaries `\b` at both ends,
so they are embedded as explicit token lists with an interpreter giving
the `re` semantics of those constructs (`re.IGNORECASE` is absorbed by
the fact that every caller passes an already lowercased string, matching
the lowercase literals below). -/

/-- One token of a phrase pattern: a literal run, a character class, or
`\s+` (one or more whitespace characters). -/
inductive PatTok where
  | lit (w : List Char)
  | cls (cs : List Char)
  | wsp
deriving DecidableEq, Repr

/-- Word characters for `\b` (Python `re` with `re.UNICODE`: alphanumeric
or underscore). -/
def is_word_char (c : Char) : Bool := py_is_alnum c || c == '_'

/-- Wordness of an optional adjacent character; outside the string counts
as non-word, which is exactly Python's `\b` edge behaviour. -/
def opt_word (o : Option Char) : Bool :=
  match o with
  | some c => is_word_char c
  | none => false

/-- Match a token sequence greedily at the head of `s`, threading the last
consumed character (for the trailing `\b`).  Greedy `\s+` is exact here
because in every pattern the token after `\s+` starts with a
non-whitespace character. -/
def match_toks : List PatTok → List Char → Option Char → Option (Option Char × List Char)
  | [], s, last => some (last, s)
  | .lit w :: ts, s, last =>
    if w.isPrefixOf s then
      match_toks ts (s.drop w.length) (match w.getLast? with | some c => some c | none => last)
    else none
  | .cls cs :: ts, s, _ =>
    match s with
    | c :: rest => if cs.contains c then match_toks ts rest (some c) else none
    | [] => none
  | .wsp :: ts, s, last =>
    let sp := s.takeWhile py_is_space
    if sp.length == 0 then none
    else match_toks ts (s.drop sp.length) (match sp.getLast? with | some c => some c | none => last)

/-- `pattern.search`: try the token sequence at every position, requiring a
word boundary before the first matched character and after the last one. -/
def search_pattern (p : List PatTok) (s : String) : Bool :=
  go none s.data
where
  go : Option Char → List Char → Bool
  | _, [] => false
  | prev, c :: rest =>
    ((opt_word prev != is_word_char c) &&
      (match match_toks p (c :: rest) none with
       | some (last, after) => opt_word last != opt_word after.head?
       | none => false)) ||
    go (some c) rest

/-- The eight `_PHRASE_PATTERNS`, token for token. -/
def phrase_patterns : List (List PatTok) :=
  [[.lit "max".data, .wsp, .lit "is".data, .wsp, .lit "better".data],
   [.lit "макс".data, .wsp, .lit "лучше".data],
   [.lit "fromchat".data, .wsp, .lit "г".data, .cls ['а', 'о'], .lit "вно".data],
   [.lit "фромчат".data, .wsp, .lit "г".data, .cls ['а', 'о'], .lit "вно".data],
   [.lit "18+".data],
   [.lit "xxx".data],
   [.lit "айфон".data, .wsp, .lit "топ".data],
   [.lit "самсунг".data, .wsp, .lit "г".data, .cls ['а', 'о'], .lit "вно".data]]

/-! ### Fuzzy phrase groups (`_find_fuzzy_phrase_spans` and helpers) -/

/-- `_tokenize_with_spans`, keeping only the normalized token texts (the
spans of a match are irrelevant to `contains_profanity`, which only asks
whether the span list is non-empty). -/
def tokenize_norm (s : String) : List String :=
  go s.data []
where
  go : List Char → List Char → List String
  | [], buf => if buf.isEmpty then [] else [normalize_token ⟨buf.reverse⟩]
  | c :: rest, buf =>
    if py_is_alnum c || c == '@' || c == '#' || c == '_' then
      go rest (c :: buf)
    else if buf.isEmpty then go rest []
    else normalize_token ⟨buf.reverse⟩ :: go rest []

/-- One row of the `_edit_distance_limited` dynamic program: given the
previous row and the row index `i`, produce the costs for character `ca`
against each character of `b`. -/
def edl_row (ca : Char) (b : List Char) (previous : List Nat) (i : Nat) : List Nat :=
  i :: go b previous i
where
  go : List Char → List Nat → Nat → List Nat
  | [], _, _ => []
  | cb :: bs, pPrev :: pRest, curLast =>
    let pj := pRest.headD 0
    let cost := min (curLast + 1) (min (pj + 1) (pPrev + (if ca == cb then 0 else 1)))
    cost :: go bs pRest cost
  | _ :: _, [], _ => []

/-- `_edit_distance_limited(a, b, max_distance)`: dynamic program with the
source's early exit when a whole row exceeds the bound. -/
def edit_distance_limited (a b : List Char) (maxd : Nat) : Bool :=
  if a = b then true
  else if maxd == 0 then false
  else if (Int.natAbs ((a.length : Int) - (b.length : Int))) > maxd then false
  else go a (List.range (b.length + 1)) 1
where
  go : List Char → List Nat → Nat → Bool
  | [], previous, _ => previous.getLastD 0 ≤ maxd
  | ca :: as, previous, i =>
    let current := edl_row ca b previous i
    if current.foldl min i > maxd then false
    else go as current (i + 1)

/-- `_RAW_PHRASE_GROUPS` for the `"generic"` group, with each word passed
through `_normalize_token` as `_get_phrases` does. -/
def generic_phrases : List (List String) :=
  [["айфон", "топ"], ["самсунг", "говно"]].map (fun p => p.map normalize_token)

/-- `_find_fuzzy_phrase_spans(text, "generic")` reduced to its emptiness:
a phrase matches at token index `idx` when every phrase word is within
limited edit distance 1 of the corresponding token. -/
def find_fuzzy_generic (s : String) : Bool :=
  let tokens := tokenize_norm s
  (List.range tokens.length).any (fun idx =>
    generic_phrases.any (fun phrase =>
      decide (idx + phrase.length ≤ tokens.length) &&
      (List.range phrase.length).all (fun off =>
        edit_distance_limited (tokens.getD (idx + off) "").data (phrase.getD off "").data 1)))

/-! ### Substring/subsequence term scan (`_check_profanity_substrings`) -/

/-- All positions where `word` occurs as a substring of `text`; the
source's `find`/`start = pos + 1` loop enumerates exactly these
(overlapping occurrences included). -/
def substr_positions (word text : List Char) : List Nat :=
  (List.range text.length).filter (fun p => word.isPrefixOf (text.drop p))

/-- The subsequence scan of `_check_profanity_substrings`: walk the text
once, advancing through `word` on every character match; when the word
completes, record the span (unless already present) and restart. -/
def subseq_scan (word : List Char) : List Char → Nat → Nat → Option Nat → List (Nat × Nat) → List (Nat × Nat)
  | [], _, _, _, acc => acc
  | c :: rest, i, j, seqStart, acc =>
    match word.get? j with
    | none => acc
    | some wj =>
      if c == wj then
        let s0 := seqStart.getD i
        if j + 1 == word.length then
          let sp := (s0, i + 1)
          let acc := if acc.contains sp then acc else acc ++ [sp]
          subseq_scan word rest (i + 1) 0 none acc
        else
          subseq_scan word rest (i + 1) (j + 1) (some s0) acc
      else
        subseq_scan word rest (i + 1) j seqStart acc

/-- `_check_profanity_substrings(normalized_text, profane_words)`:
for each term, collect its substring spans, then run the subsequence scan
against the accumulated span list. -/
def check_profanity_substrings (normalized_text : String) (profane_words : List String) : List (Nat × Nat) :=
  let tl := (lower_str normalized_text).data
  profane_words.foldl
    (fun spans word =>
      let wl := (lower_str word).data
      let spans := spans ++ (substr_positions wl tl).map (fun p => (p, p + wl.length))
      subseq_scan wl tl 0 0 none spans)
    []

/-! ### Whitelist handling and the top-level decision -/

/-- First substring occurrence of `word` in `text` (`str.find`, as an
`Option` instead of `-1`). -/
def first_occurrence (word text : List Char) : Option Nat :=
  (substr_positions word text).head?

/-- The per-span whitelist test of `contains_profanity`: the span start
must fall inside the first occurrence of a whitelisted word in the
normalized text. -/
def span_whitelisted (normalized_lower : String) (span_start : Nat) : Bool :=
  whitelist_terms.any (fun wl =>
    let nwl := lower_str (extract_alphanumeric wl)
    match first_occurrence nwl.data normalized_lower.data with
    | some pos => decide (pos ≤ span_start) && decide (span_start < pos + nwl.length)
    | none => false)

/-- `re.sub(r"\b" + word + r"\b", "", s)`: scan left to right, dropping
every word-boundary-delimited occurrence of `word`; boundaries are judged
against the original characters, and scanning resumes right after a
removed occurrence.  The `skip` counter consumes the remaining characters
of a recognised occurrence one at a time (keeping the recursion
structural); `prev` carries the character preceding the scan position in
the original string. -/
def wb_sub (word : List Char) : List Char → Option Char → Nat → List Char
  | [], _, _ => []
  | _ :: rest, prev, Nat.succ k => wb_sub word rest prev k
  | c :: rest, prev, 0 =>
    if word ≠ [] ∧ word.isPrefixOf (c :: rest) ∧
        (opt_word prev != is_word_char c) = true ∧
        (opt_word (some (word.getLastD c)) != opt_word ((c :: rest).drop word.length).head?) = true then
      wb_sub word rest (some (word.getLastD c)) (word.length - 1)
    else
      c :: wb_sub word rest (some c) 0

/-- The whitelist-removal step of `contains_profanity`: every whitelisted
word (normalized like the text) is deleted at word boundaries. -/
def remove_whitelisted (normalized_lower : String) : String :=
  whitelist_terms.foldl
    (fun s wl => ⟨wb_sub (lower_str (extract_alphanumeric wl)).data s.data none 0⟩)
    normalized_lower

/-- `contains_profanity(text)` from `profanity.py`.

`bp` stands for the third-party `better_profanity` matcher consulted on
the final whitelist-stripped string (`_profanity.contains_profanity`,
whose dictionary also carries the dynamic blocklist file); it is not part
of the repository and is passed as a parameter.  Everything else follows
the source: empty text is clean; the text is projected to its normalized
alphanumeric characters; the phrase patterns and the generic fuzzy
phrases are tried on the lowercased projection; the static terms are
searched as substrings or subsequences, any hit outside the first
whitelisted occurrence deciding `true`; otherwise whitelisted words are
removed and `bp` decides. -/
def contains_profanity (bp : String → Bool) (text : String) : Bool :=
  if text == "" then false
  else
    let normalized_text := extract_alphanumeric text
    let normalized_lower := lower_str normalized_text
    if phrase_patterns.any (fun p => search_pattern p normalized_lower) then true
    else if find_fuzzy_generic normalized_lower then true
    else
      let spans := check_profanity_substrings normalized_text static_terms
      if spans.any (fun sp => !span_whitelisted normalized_lower sp.1) then true
      else bp (remove_whitelisted normalized_lower)

/-! ## Spam monitor (`_monitor_public_message_activity` in
`backend/routes/messaging.py`) -/

/-- The module constants of `messaging.py`. -/
def SPAM_WINDOW_SECONDS : Int := 45
def SPAM_MESSAGE_LIMIT : Nat := 5
def BURST_WINDOW_SECONDS : Int := 30
def BURST_COUNT_THRESHOLD : Nat := 20
def SHORT_MESSAGE_LENGTH : Nat := 8
def SHORT_MESSAGE_REPEAT_LIMIT : Nat := 4

/-- `_normalize_for_spam`: NFKC (identity on the modelled repertoire),
`casefold` (which agrees with `lower` here), then keep only the
characters of the class `[0-9a-zа-яё]` (the text is already lowercased,
so `re.IGNORECASE` adds nothing). -/
def normalize_for_spam (text : String) : String :=
  ⟨(text.data.map py_to_lower).filter (fun c =>
    ('0' ≤ c && c ≤ '9') || ('a' ≤ c && c ≤ 'z') ||
    (Char.ofNat 0x0430 ≤ c && c ≤ Char.ofNat 0x044F) || c == Char.ofNat 0x0451)⟩

/-- One entry of `_recent_message_cache[user]`:
`(normalized, content, timestamp, message_id)`. -/
structure HistoryEntry where
  normalized : String
  content : String
  ts : Int
  msg_id : Nat
deriving DecidableEq, Repr

/-- The in-memory windows of one user: `_message_rate_cache[user]` and
`_recent_message_cache[user]`. -/
structure SpamState where
  rate : List (Int × Nat)
  history : List HistoryEntry
deriving DecidableEq, Repr

/-- What the monitor did to the user on one insert: nothing, or one of the
three suspensions with the message ids it deletes. -/
inductive SpamOutcome where
  | ok
  | burst_suspend (ids : List Nat)
  | short_suspend (ids : List Nat)
  | similar_suspend (ids : List Nat)
deriving DecidableEq, Repr

/-- The rate deque after appending the current message and trimming the
burst window (`rate_bucket.append` + the `popleft` loop). -/
def rate_after (now : Int) (message_id : Nat) (st : SpamState) : List (Int × Nat) :=
  (st.rate ++ [(now, message_id)]).dropWhile (fun p => decide (now - p.1 > BURST_WINDOW_SECONDS))

/-- The history deque after trimming the 45-second spam window (before the
current message is appended). -/
def history_window (now : Int) (st : SpamState) : List HistoryEntry :=
  st.history.dropWhile (fun h => decide (now - h.ts > SPAM_WINDOW_SECONDS))

/-- `prior_same`: prior messages in the window with identical normalized
text. -/
def prior_same_count (now : Int) (st : SpamState) (normalized : String) : Nat :=
  ((history_window now st).filter (fun h => h.normalized == normalized)).length

/-- `prior_similar`: prior messages whose normalized text is non-empty,
different, and similar according to `SequenceMatcher` (the stdlib ratio
test `ratio() >= 0.88` is the parameter `sim`). -/
def prior_similar_count (sim : String → String → Bool) (now : Int) (st : SpamState)
    (normalized : String) : Nat :=
  ((history_window now st).filter (fun h =>
    h.normalized != "" && normalized != "" && h.normalized != normalized &&
    sim normalized h.normalized)).length

/-- `_monitor_public_message_activity(user, content, message_id, db)`.

`sim a b` models `SequenceMatcher(None, a, b).ratio() >= 0.88` from the
standard library.  The `suspend` closure is a no-op for the owner
(`user.id == 1`) and for already-suspended users; the returned outcome
records which rule suspended the user and which message ids it deleted
(the source appends the current id to the short/similar lists even though
the appended history already contains it, so it occurs twice). -/
def monitor_public_message_activity (sim : String → String → Bool)
    (user_id : Nat) (user_suspended : Bool) (content : String) (message_id : Nat)
    (now : Int) (st : SpamState) : SpamState × SpamOutcome :=
  let eligible := !user_suspended && user_id != 1
  let rate := rate_after now message_id st
  let burst_count := rate.length
  if BURST_COUNT_THRESHOLD ≤ burst_count then
    let burst_message_ids := rate.map (fun p => p.2)
    (⟨rate, st.history⟩, if eligible then .burst_suspend burst_message_ids else .ok)
  else
    let normalized := normalize_for_spam content
    let history := history_window now st
    let prior_same := prior_same_count now st normalized
    let prior_similar := prior_similar_count sim now st normalized
    let history2 := history ++ [⟨normalized, content, now, message_id⟩]
    let total_matches := prior_same + prior_similar + 1
    if normalized.length ≤ SHORT_MESSAGE_LENGTH ∧ SHORT_MESSAGE_REPEAT_LIMIT ≤ prior_same + 1 then
      let spam_message_ids :=
        (history2.filter (fun h => h.normalized == normalized)).map (fun h => h.msg_id) ++ [message_id]
      (⟨rate, history2⟩, if eligible then .short_suspend spam_message_ids else .ok)
    else if SPAM_MESSAGE_LIMIT ≤ total_matches then
      let spam_message_ids :=
        (history2.filter (fun h =>
          h.normalized == normalized ||
          (h.normalized != "" && normalized != "" && h.normalized != normalized &&
            sim normalized h.normalized))).map (fun h => h.msg_id) ++ [message_id]
      (⟨rate, history2⟩, if eligible then .similar_suspend spam_message_ids else .ok)
    else
      (⟨rate, history2⟩, .ok)

/-! ## Message validation pipelines (`_send_message_internal`,
`_edit_message_internal`) -/

/-- The per-character expansion of `html.escape(s, quote=False)`. -/
def html_escape_char (c : Char) : List Char :=
  if c == '&' then "&amp;".data
  else if c == '<' then "&lt;".data
  else if c == '>' then "&gt;".data
  else [c]

/-- `html.escape(s, quote=False)`: the three sequential `str.replace`
calls amount to this character-wise expansion (the `&` pass runs first,
so no replacement output is re-replaced). -/
def html_escape (s : String) : String :=
  ⟨s.data.flatMap html_escape_char⟩

/-- Python `str.strip()`: remove leading and trailing whitespace. -/
def py_strip (s : String) : String :=
  ⟨((s.data.dropWhile py_is_space).reverse.dropWhile py_is_space).reverse⟩

/-- Outcome of `_send_message_internal`'s validation chain. -/
inductive SendResult where
  | replyNotFound
  | noContent
  | profanityRejected
  | tooLong
  | success (escaped : String)
deriving DecidableEq, Repr

/-- The validation chain of `_send_message_internal` (messaging.py lines
295-330): missing reply target → 404, empty stripped content → 400,
profanity → 422, escaped length over 4096 → 400 "Message too long",
otherwise the message row is created with the escaped content.  `bp` is
the `better_profanity` parameter of `contains_profanity`; `reply_ok`
states that `reply_to_id` was absent or resolved to an existing row. -/
def send_message_internal (bp : String → Bool) (reply_ok : Bool) (content : String) : SendResult :=
  if !reply_ok then .replyNotFound
  else
    let raw_content := py_strip content
    if raw_content == "" then .noContent
    else if contains_profanity bp raw_content then .profanityRejected
    else
      let escaped_content := html_escape raw_content
      if escaped_content.length > 4096 then .tooLong
      else .success escaped_content

/-- Outcome of `_edit_message_internal`'s validation chain. -/
inductive EditResult where
  | messageNotFound
  | forbidden
  | emptyContent
  | profanityRejected
  | tooLong
  | success (escaped : String)
deriving DecidableEq, Repr

/-- The validation chain of `_edit_message_internal` (messaging.py lines
713-768): missing row → 404, foreign author → 403, empty stripped
content → 400, profanity → 422, escaped length over 4096 → 400
"Message too long", otherwise the row is updated. -/
def edit_message_internal (bp : String → Bool) (message_found is_author : Bool)
    (content : String) : EditResult :=
  if !message_found then .messageNotFound
  else if !is_author then .forbidden
  else
    let raw_content := py_strip content
    if raw_content == "" then .emptyContent
    else if contains_profanity bp raw_content then .profanityRejected
    else
      let escaped_content := html_escape raw_content
      if escaped_content.length > 4096 then .tooLong
      else .success escaped_content

/-! ## Store rows and the DM send paths -/

/-- The `users` columns consulted by the messaging handlers. -/
structure UserRec where
  id : Nat
  deleted : Bool
  suspended : Bool
deriving DecidableEq, Repr

/-- A `dm_envelope` row (the opaque ciphertext columns). -/
structure Envelope where
  sender_id : Nat
  recipient_id : Nat
  iv_b64 : String
  ciphertext_b64 : String
  salt_b64 : String
  iv2_b64 : String
  wrapped_mk_b64 : String
deriving DecidableEq, Repr

/-- HTTP-shaped errors: status code and detail string. -/
abbrev HttpErr := Nat × String

/-- The recipient test of the HTTP route `dm_send`:
`if not recipient or recipient.deleted or recipient.suspended`. -/
def recipient_invalid (users : List UserRec) (rid : Nat) : Bool :=
  match users.find? (fun u => u.id == rid) with
  | none => true
  | some r => r.deleted || r.suspended

/-- The HTTP route `POST /dm/send` (messaging.py lines 470-524), reduced to
its validation chain and envelope insert; the result carries the new
envelope table.  `rid` is `int(payload["recipientId"])` (an `Int`, as in
Python). -/
def dm_send (users : List UserRec) (envs : List Envelope) (sender : Nat) (rid : Int)
    (iv ct salt iv2 wm : String) : Except HttpErr (List Envelope) :=
  if rid ≤ 0 then .error (400, "Invalid recipientId")
  else if rid.toNat == sender then .error (400, "Cannot send DM to yourself")
  else if recipient_invalid users rid.toNat then .error (404, "Recipient not found")
  else .ok (envs ++ [⟨sender, rid.toNat, iv, ct, salt, iv2, wm⟩])

/-- The WebSocket handler `dmSend` (handlers.py lines 150-209): after the
required-field check (the fields are parameters here, hence present), the
envelope is inserted with no recipient validation of any kind. -/
def dmSend (users : List UserRec) (envs : List Envelope) (sender : Nat) (rid : Int)
    (iv ct salt iv2 wm : String) : Except HttpErr (List Envelope) :=
  let _ := users
  .ok (envs ++ [⟨sender, rid.toNat, iv, ct, salt, iv2, wm⟩])

/-! ## Reactions (`add_reaction`, messaging.py lines 814-880) -/

/-- A reaction identity `(message_id, user_id, emoji)`; the table's unique
constraint makes the rows a finite set of these. -/
abbrev Rxn := Nat × Nat × String

/-- The toggle at the heart of `add_reaction`: an existing row is deleted
("removed"), a missing one is inserted ("added"). -/
def toggle_reaction (rs : Finset Rxn) (m u : Nat) (e : String) : String × Finset Rxn :=
  if (m, u, e) ∈ rs then ("removed", rs.erase (m, u, e))
  else ("added", insert (m, u, e) rs)

/-- `POST /add_reaction`: 404 when the message row is missing, otherwise
the toggle. -/
def add_reaction (messages : List Nat) (rs : Finset Rxn) (m u : Nat) (e : String) :
    Except HttpErr (String × Finset Rxn) :=
  if messages.contains m then .ok (toggle_reaction rs m u e)
  else .error (404, "Message not found")

/-! ## Status subscriptions (`subscribeStatus`,
`broadcast_status_change`) -/

/-- The WebSocket handler `subscribeStatus` (handlers.py lines 441-463):
the target id is added to the connection's subscription set first; only
then is the user row looked up, a missing row raising 404 without undoing
the insertion. -/
def subscribeStatus (users : List UserRec) (subs : Finset Nat) (target : Nat) :
    Finset Nat × Except HttpErr Unit :=
  let subs := insert target subs
  match users.find? (fun u => u.id == target) with
  | some _ => (subs, .ok ())
  | none => (subs, .error (404, "User not found"))

/-- `broadcast_status_change` (messaging.py lines 1300-1309): the update is
enqueued on every connection whose subscription set contains the user.
Connections are labelled by `Nat` handles paired with their subscription
sets. -/
def broadcast_status_recipients (connections : List (Nat × Finset Nat)) (user_id : Nat) :
    List Nat :=
  (connections.filter (fun p => decide (user_id ∈ p.2))).map (fun p => p.1)

/-! ## Update log, sequencer and the session manager
(`MessaggingSocketManager`) -/

/-- An `update_log` row: `(user_id, sequence)` unique, `updates` the
serialized batch (updates are kept abstract as strings). -/
structure UpdateLogEntry where
  user_id : Nat
  sequence : Nat
  updates : List String
deriving DecidableEq, Repr

instance : DecidableRel (fun (a b : UpdateLogEntry) => a.sequence ≤ b.sequence) :=
  fun a b => Nat.decLe a.sequence b.sequence

instance : IsTotal UpdateLogEntry (fun a b => a.sequence ≤ b.sequence) :=
  ⟨fun a b => Nat.le_total a.sequence b.sequence⟩

instance : IsTrans UpdateLogEntry (fun a b => a.sequence ≤ b.sequence) :=
  ⟨fun _ _ _ => Nat.le_trans⟩

/-- `FetchUpdateLog(user, from_exclusive, to_inclusive)`: the query used by
the `getUpdates` handler (handlers.py lines 75-79) — filter on the user
and the half-open sequence interval, ordered by sequence ascending. -/
def fetch_update_log (log : List UpdateLogEntry) (uid from_ex to_inc : Nat) :
    List UpdateLogEntry :=
  List.insertionSort (fun a b => a.sequence ≤ b.sequence)
    (log.filter (fun e => e.user_id == uid && decide (from_ex < e.sequence) &&
      decide (e.sequence ≤ to_inc)))

/-- The mutable state of `MessaggingSocketManager` restricted to one
modelled websocket, plus the persistent `update_log` table.  Python sets
are modelled as insertion-ordered duplicate-free lists (every fact proved
below is insensitive to the iteration order a Python `set` would
exhibit). -/
structure ManagerState where
  sequence_numbers : List (Nat × Nat)
  stored_sequences : List (Nat × Nat)
  update_log : List UpdateLogEntry
  pending_updates : List String
  recent_updates : List String
  user_by_ws : Option Nat
deriving DecidableEq, Repr

/-- Counter lookup with the `__init__`/`_get_next_sequence` default of 0. -/
def lookup_counter (l : List (Nat × Nat)) (u : Nat) : Nat :=
  match l.find? (fun p => p.1 == u) with
  | some p => p.2
  | none => 0

/-- Store a counter value, replacing any previous entry for the user. -/
def set_counter (l : List (Nat × Nat)) (u n : Nat) : List (Nat × Nat) :=
  (l.filter (fun p => p.1 != u)) ++ [(u, n)]

/-- `__init__` (messaging.py lines 956-974): every in-memory dict starts
empty; only the persistent `update_log` table survives a restart.  This is
the process-start state used to check the startup-reconciliation claim. -/
def init_manager (persisted_log : List UpdateLogEntry) : ManagerState :=
  { sequence_numbers := []
    stored_sequences := []
    update_log := persisted_log
    pending_updates := []
    recent_updates := []
    user_by_ws := none }

/-- `_get_next_sequence(user_id)` (messaging.py lines 979-988): missing
counters start at 0 and the incremented value is returned. -/
def get_next_sequence (st : ManagerState) (u : Nat) : ManagerState × Nat :=
  let n := lookup_counter st.sequence_numbers u + 1
  ({ st with sequence_numbers := set_counter st.sequence_numbers u n }, n)

/-- Modelled from the spec: "On process start, for every user present in
the log, initialize the counter to the max logged seq."  The maximum
logged sequence of a user, for comparison against the code's `__init__`. -/
def spec_reconciled_counter (log : List UpdateLogEntry) (u : Nat) : Nat :=
  (log.filter (fun e => e.user_id == u)).foldl (fun m e => max m e.sequence) 0

/-- A signature turned into a Python `set` of its characters:
`set("abc") = {"a","b","c"}` as in `set(list(recent)[-1])`. -/
def char_set (s : String) : List String :=
  (s.data.map (fun c => String.mk [c])).eraseDups

/-- `_add_update(websocket, update)` (messaging.py lines 1040-1061) with
the update's signature precomputed (`_get_update_signature` is an md5 of
canonical JSON; signatures are abstract 32-character strings here).
A duplicate signature drops the update; otherwise the update and the
signature are appended, and then the "keep last 100 signatures" trim runs:
`if len(recent) > 1: recent = set(list(recent)[-1])` — the characters of
a single signature.  `pick` models the unspecified iteration order of the
Python set (`list(recent)[-1]`). -/
def add_update (pick : List String → String) (st : ManagerState) (sig upd : String) :
    ManagerState :=
  if st.recent_updates.contains sig then st
  else
    let pending := st.pending_updates ++ [upd]
    let recent := st.recent_updates ++ [sig]
    let recent := if recent.length > 1 then char_set (pick recent) else recent
    { st with pending_updates := pending, recent_updates := recent }

/-- `list(recent)[-1]` under insertion-order iteration. -/
def last_pick (l : List String) : String := l.getLastD ""

/-- `_flush_updates(websocket, db)` (messaging.py lines 1063-1129).
`db` records whether a database session was passed (the suspension path
`send_suspension_to_user → send_update_to_user → _send_update` passes
`None`).  Returns the new state and the `{type:"updates", seq, updates}`
frame sent, if any: the pending batch is swapped out, the recent-signature
cache trimmed to its last 50 entries, unauthenticated sockets are skipped,
a sequence number is allocated, and the batch is appended to the
update log only when `db` is present and `(user, seq)` is not already
marked stored. -/
def flush_updates (st : ManagerState) (db : Bool) : ManagerState × Option (Nat × List String) :=
  if st.pending_updates.isEmpty then (st, none)
  else
    let updates := st.pending_updates
    let st := { st with pending_updates := [] }
    let st := { st with recent_updates :=
      if st.recent_updates.length > 50 then
        st.recent_updates.drop (st.recent_updates.length - 50)
      else st.recent_updates }
    match st.user_by_ws with
    | none => (st, none)
    | some user_id =>
      let (st, seq) := get_next_sequence st user_id
      let st :=
        if db && !(st.stored_sequences.contains (user_id, seq)) then
          { st with
            update_log := st.update_log ++ [⟨user_id, seq, updates⟩],
            stored_sequences := st.stored_sequences ++ [(user_id, seq)] }
        else st
      (st, some (seq, updates))

/-- The `getUpdates` handler (handlers.py lines 63-107), reduced to the
list of replayed batches: with `lastSeq` from the client and
`currentSeq = sequence_numbers.get(user, 0)`, the log is consulted only
when `lastSeq > 0 and lastSeq < currentSeq`. -/
def getUpdates_replay (st : ManagerState) (uid last_seq : Nat) : List UpdateLogEntry :=
  let current_seq := lookup_counter st.sequence_numbers uid
  if 0 < last_seq ∧ last_seq < current_seq then
    fetch_update_log st.update_log uid last_seq current_seq
  else []

/-! ## Theorems -/

set_option maxRecDepth 200000

/-- The state of the modelled websocket right after
`send_suspension_to_user` enqueued a `suspended` update on an
authenticated session of user 7: the batch flush scheduled by that path
runs with no database session. -/
def suspension_flush_state : ManagerState :=
  { sequence_numbers := []
    stored_sequences := []
    update_log := []
    pending_updates := ["suspended"]
    recent_updates := []
    user_by_ws := some 7 }

/-- C1.  The flush of the `suspended` batch on an authenticated session of
user 7 consumes sequence number 1 and sends the frame, but appends nothing
to the UpdateLog (the `db` session is `None` on that path), so fetching
the log over `(0, 1]` returns nothing instead of the batch; with a
database session the very same flush does log the batch, confirming that
the claimed invariant fails precisely on the `suspended` update path. -/
theorem C1_suspension_flush_not_logged :
    (flush_updates suspension_flush_state false).2 = some (1, ["suspended"]) ∧
    (flush_updates suspension_flush_state false).1.update_log = [] ∧
    fetch_update_log (flush_updates suspension_flush_state false).1.update_log 7 0 1 = [] ∧
    (flush_updates suspension_flush_state true).1.update_log = [⟨7, 1, ["suspended"]⟩] ∧
    fetch_update_log (flush_updates suspension_flush_state true).1.update_log 7 0 1
      = [⟨7, 1, ["suspended"]⟩] := by
  decide

/-- A persisted update log surviving a process restart: user 7 last
flushed sequence 5. -/
def restart_log : List UpdateLogEntry := [⟨7, 5, ["batch"]⟩]

/-- C2 counterexample.  At process start the sequencer counters are empty,
so the first `NextSeq(7)` returns 1 even though user 7's maximum logged
sequence is 5 and the claim demands 6. -/
theorem C2_restart_counter_counterexample :
    (get_next_sequence (init_manager restart_log) 7).2 = 1 ∧
    spec_reconciled_counter restart_log 7 + 1 = 6 ∧
    (1 : Nat) ≠ 6 := by
  decide

/-- C2 (amended).  `__init__` performs no reconciliation from the
UpdateLog: whatever the persisted log contains, the first `NextSeq(u)`
issued after a restart returns 1 for every user `u`. -/
theorem C2_first_next_seq_after_restart_is_one (log : List UpdateLogEntry) (u : Nat) :
    (get_next_sequence (init_manager log) u).2 = 1 := rfl

/-- Three identical short public messages already sit in user 2's
45-second history window. -/
def spam_cx_state : SpamState :=
  { rate := [(95, 1), (96, 2), (97, 3)]
    history := [⟨"abc", "abc", 95, 1⟩, ⟨"abc", "abc", 96, 2⟩, ⟨"abc", "abc", 97, 3⟩] }

/-- C3 counterexample.  With only 3 prior exact-normalized matches in the
window (not the claimed 4), the short-repeat rule already suspends the
non-owner, non-suspended user 2 on the newly inserted message 4 and
deletes the matching rows: the code fires at `prior_same + 1 >= 4`,
i.e. at 3 prior matches. -/
theorem C3_short_repeat_counterexample :
    (monitor_public_message_activity (fun _ _ => false) 2 false "abc" 4 100 spam_cx_state).2
      = .short_suspend [1, 2, 3, 4, 4] ∧
    prior_same_count 100 spam_cx_state (normalize_for_spam "abc") = 3 ∧
    ¬(4 ≤ 3) := by
  decide

/-- C3 (amended).  For a non-owner, non-suspended user whose burst window
stays below the burst threshold, the short-repeat rule suspends exactly
when the normalized text has length at most 8 and at least 3 prior
messages in the 45-second window carry an identical normalized text
(equivalently, at least 4 messages counting the new one). -/
theorem C3_short_repeat_amended (sim : String → String → Bool) (user_id : Nat)
    (content : String) (message_id : Nat) (now : Int) (st : SpamState)
    (howner : user_id ≠ 1)
    (hburst : (rate_after now message_id st).length < BURST_COUNT_THRESHOLD) :
    (∃ ids, (monitor_public_message_activity sim user_id false content message_id now st).2
        = .short_suspend ids) ↔
      ((normalize_for_spam content).length ≤ SHORT_MESSAGE_LENGTH ∧
        3 ≤ prior_same_count now st (normalize_for_spam content)) := by
  have heligible : (!false && user_id != 1) = true := by
    simp [bne_iff_ne, howner]
  have hlim : SHORT_MESSAGE_REPEAT_LIMIT = 4 := rfl
  simp only [monitor_public_message_activity]
  rw [if_neg (Nat.not_le.mpr hburst)]
  by_cases hcond : (normalize_for_spam content).length ≤ SHORT_MESSAGE_LENGTH ∧
      SHORT_MESSAGE_REPEAT_LIMIT ≤ prior_same_count now st (normalize_for_spam content) + 1
  · rw [if_pos hcond, if_pos heligible]
    refine iff_of_true ⟨_, rfl⟩ ⟨hcond.1, ?_⟩
    have := hcond.2
    rw [hlim] at this
    omega
  · rw [if_neg hcond]
    refine iff_of_false ?_ ?_
    · rintro ⟨ids, hids⟩
      split_ifs at hids
    · intro hrhs
      refine hcond ⟨hrhs.1, ?_⟩
      rw [hlim]
      omega

/-- C3 witness: the amended rule applied at the concrete state of the
counterexample (3 prior identical short messages). -/
theorem C3_short_repeat_amended_witness :
    (2 ≠ 1) ∧ ((rate_after 100 4 spam_cx_state).length < BURST_COUNT_THRESHOLD) ∧
    ((∃ ids, (monitor_public_message_activity (fun _ _ => false) 2 false "abc" 4 100
        spam_cx_state).2 = .short_suspend ids) ↔
      ((normalize_for_spam "abc").length ≤ SHORT_MESSAGE_LENGTH ∧
        3 ≤ prior_same_count 100 spam_cx_state (normalize_for_spam "abc"))) :=
  ⟨by decide, by decide,
    C3_short_repeat_amended (fun _ _ => false) 2 "abc" 4 100 spam_cx_state
      (by decide) (by decide)⟩

/-- User 5 exists but is suspended. -/
def suspended_recipient : UserRec := ⟨5, false, true⟩

/-- C4 counterexample.  The WebSocket `dmSend` command from user 2 to the
suspended user 5 performs no recipient check: it creates the envelope row
and returns success, while the claim demands a NotFound failure with no
row created. -/
theorem C4_ws_dmSend_counterexample :
    dmSend [suspended_recipient] [] 2 5 "iv" "ct" "salt" "iv2" "wm"
      = .ok [⟨2, 5, "iv", "ct", "salt", "iv2", "wm"⟩] ∧
    recipient_invalid [suspended_recipient] 5 = true ∧
    (Except.ok [(⟨2, 5, "iv", "ct", "salt", "iv2", "wm"⟩ : Envelope)]
      ≠ (Except.error ((404 : Nat), "Recipient not found") : Except HttpErr (List Envelope))) :=
  ⟨rfl, by decide, fun h => Except.noConfusion h⟩

/-- C4 (amended).  The HTTP `dm/send` route, for a positive recipient id
different from the sender, fails with 404 NotFound (creating no envelope
row) exactly when the recipient id does not identify an existing,
non-deleted, non-suspended user; the WebSocket `dmSend` command performs
no such check (see the counterexample). -/
theorem C4_http_dm_send_amended (users : List UserRec) (envs : List Envelope)
    (sender : Nat) (rid : Int) (iv ct salt iv2 wm : String)
    (h1 : 0 < rid) (h2 : rid.toNat ≠ sender) :
    dm_send users envs sender rid iv ct salt iv2 wm
        = .error (404, "Recipient not found")
      ↔ recipient_invalid users rid.toNat = true := by
  unfold dm_send
  rw [if_neg (by omega : ¬ rid ≤ 0), if_neg (by simp [h2])]
  by_cases h : recipient_invalid users rid.toNat = true
  · rw [if_pos h]
    simp [h]
  · rw [if_neg h]
    simp [h]

/-- C4 witness: the amended statement applied to the suspended recipient 5
and sender 2, giving the 404 refusal on the HTTP path. -/
theorem C4_http_dm_send_amended_witness :
    (0 : Int) < 5 ∧ (5 : Int).toNat ≠ 2 ∧
    dm_send [suspended_recipient] [] 2 5 "iv" "ct" "salt" "iv2" "wm"
      = .error (404, "Recipient not found") :=
  ⟨by decide, by decide,
    (C4_http_dm_send_amended [suspended_recipient] [] 2 5 "iv" "ct" "salt" "iv2" "wm"
      (by decide) (by decide)).mpr (by decide)⟩

/-- A 32-character signature, as `_get_update_signature`'s md5 hex digests
are. -/
def sigA : String := String.mk (List.replicate 32 'a')

/-- A second, distinct 32-character signature. -/
def sigB : String := String.mk (List.replicate 32 'b')

/-- C5.  Enqueue two updates with distinct signatures on a fresh session:
after the second insert the "keep last 100 signatures" trim
(`if len > 1: recent = set(list(recent)[-1])`) leaves the set holding the
characters of a single signature, so neither of the last two signatures —
let alone the last 100 — is retained. -/
theorem C5_recent_signature_trim_drops_all :
    (add_update last_pick (add_update last_pick (init_manager []) sigA "upd1")
        sigB "upd2").recent_updates = ["b"] ∧
    (add_update last_pick (add_update last_pick (init_manager []) sigA "upd1")
        sigB "upd2").recent_updates.contains sigA = false ∧
    (add_update last_pick (add_update last_pick (init_manager []) sigA "upd1")
        sigB "upd2").recent_updates.contains sigB = false ∧
    (add_update last_pick (add_update last_pick (init_manager []) sigA "upd1")
        sigB "upd2").pending_updates = ["upd1", "upd2"] := by
  decide

/-- State of a session of user 7 whose current sequence is 1 and whose log
holds exactly the batch flushed under sequence 1. -/
def gap_state : ManagerState :=
  { sequence_numbers := [(7, 1)]
    stored_sequences := [(7, 1)]
    update_log := [⟨7, 1, ["hello"]⟩]
    pending_updates := []
    recent_updates := []
    user_by_ws := some 7 }

/-- C6 counterexample.  With `lastSeq = 0 < currentSeq = 1` the handler
replays nothing, although the log over `(0, 1]` holds exactly one batch:
the `lastSeq > 0` guard excludes the claimed `lastSeq = 0` case. -/
theorem C6_getUpdates_zero_counterexample :
    getUpdates_replay gap_state 7 0 = [] ∧
    fetch_update_log gap_state.update_log 7 0 1 = [⟨7, 1, ["hello"]⟩] ∧
    (([] : List UpdateLogEntry) ≠ [⟨7, 1, ["hello"]⟩]) := by
  decide

/-- C6 (amended).  For every `lastSeq ≥ 1` below the user's current
sequence, `getUpdates` replays exactly the logged batches with sequence in
`(lastSeq, currentSeq]`, in ascending sequence order; with `lastSeq = 0`
nothing is replayed (see the counterexample). -/
theorem C6_getUpdates_replay_amended (st : ManagerState) (uid last_seq : Nat)
    (h1 : 1 ≤ last_seq) (h2 : last_seq < lookup_counter st.sequence_numbers uid) :
    (∀ e, e ∈ getUpdates_replay st uid last_seq ↔
        (e ∈ st.update_log ∧ e.user_id = uid ∧ last_seq < e.sequence ∧
          e.sequence ≤ lookup_counter st.sequence_numbers uid)) ∧
    (getUpdates_replay st uid last_seq).Sorted (fun a b => a.sequence ≤ b.sequence) := by
  have hres : getUpdates_replay st uid last_seq
      = fetch_update_log st.update_log uid last_seq (lookup_counter st.sequence_numbers uid) := by
    unfold getUpdates_replay
    rw [if_pos ⟨h1, h2⟩]
  constructor
  · intro e
    rw [hres]
    unfold fetch_update_log
    rw [(List.perm_insertionSort _ _).mem_iff, List.mem_filter]
    simp [and_assoc]
  · rw [hres]
    exact List.sorted_insertionSort _ _

/-- State for the C6 witness: current sequence 2, one logged batch at
sequence 2. -/
def gap_state2 : ManagerState :=
  { sequence_numbers := [(7, 2)]
    stored_sequences := [(7, 2)]
    update_log := [⟨7, 2, ["world"]⟩]
    pending_updates := []
    recent_updates := []
    user_by_ws := some 7 }

/-- C6 witness: the amended replay contract applied at `lastSeq = 1`,
`currentSeq = 2`. -/
theorem C6_getUpdates_replay_amended_witness :
    (1 ≤ 1) ∧ (1 < lookup_counter gap_state2.sequence_numbers 7) ∧
    ((∀ e, e ∈ getUpdates_replay gap_state2 7 1 ↔
        (e ∈ gap_state2.update_log ∧ e.user_id = 7 ∧ 1 < e.sequence ∧
          e.sequence ≤ lookup_counter gap_state2.sequence_numbers 7)) ∧
      (getUpdates_replay gap_state2 7 1).Sorted (fun a b => a.sequence ≤ b.sequence)) :=
  ⟨by decide, by decide,
    C6_getUpdates_replay_amended gap_state2 7 1 (by decide) (by decide)⟩

/-- A `better_profanity` matcher that flags nothing, usable wherever the
library's verdict is irrelevant or known to be negative. -/
def bp_none : String → Bool := fun _ => false

/-- C7.  "сука" is flagged by the filter for every library verdict `bp`,
yet its noised form "сук@" — obtained by substituting the final 'а' with
its homoglyph '@' straight from the canonical `_LEET_MAP` table — reduces
to the library's verdict on "сук" (a string no dictionary flags): the
alphanumeric projection drops '@' before the homoglyph mapping is ever
applied, so the substitution un-flags the text and the claimed
noise-monotonicity fails. -/
theorem C7_profanity_noise_bypass (bp : String → Bool) :
    contains_profanity bp "сука" = true ∧
    (bp "сук" = false → contains_profanity bp "сук@" = false) := by
  refine ⟨rfl, fun h => ?_⟩
  have e : contains_profanity bp "сук@" = bp "сук" := rfl
  rw [e, h]

/-- C7 witness: with a concrete library verdict that does not flag "сук"
(the real dictionary contains "сука" but not "сук"), the flagged text
"сука" becomes clean after the '@' homoglyph substitution. -/
theorem C7_profanity_noise_bypass_witness :
    contains_profanity bp_none "сука" = true ∧
    contains_profanity bp_none "сук@" = false :=
  ⟨(C7_profanity_noise_bypass bp_none).1, (C7_profanity_noise_bypass bp_none).2 rfl⟩

/-- C8.  For an existing message, one `add_reaction` call toggles
membership of `(m, u, e)` in the reaction set — absent→added with result
"added", present→removed — and a second identical call restores the set
exactly. -/
theorem C8_reaction_toggle (messages : List Nat) (rs : Finset Rxn) (m u : Nat) (e : String)
    (h : messages.contains m = true) :
    add_reaction messages rs m u e = .ok (toggle_reaction rs m u e) ∧
    ((m, u, e) ∈ (toggle_reaction rs m u e).2 ↔ (m, u, e) ∉ rs) ∧
    ((toggle_reaction rs m u e).1 = "added" ↔ (m, u, e) ∉ rs) ∧
    add_reaction messages (toggle_reaction rs m u e).2 m u e
      = .ok (toggle_reaction (toggle_reaction rs m u e).2 m u e) ∧
    (toggle_reaction (toggle_reaction rs m u e).2 m u e).2 = rs := by
  refine ⟨by unfold add_reaction; rw [if_pos h], ?_, ?_,
    by unfold add_reaction; rw [if_pos h], ?_⟩
  · by_cases hm : (m, u, e) ∈ rs
    · simp [toggle_reaction, hm]
    · simp [toggle_reaction, hm]
  · by_cases hm : (m, u, e) ∈ rs
    · simp [toggle_reaction, hm]
    · simp [toggle_reaction, hm]
  · by_cases hm : (m, u, e) ∈ rs
    · simp [toggle_reaction, hm, Finset.insert_erase]
    · simp [toggle_reaction, hm, Finset.erase_insert]

/-- C8 witness: the toggle contract at message 1, user 2, emoji "👍" on
the empty reaction set. -/
theorem C8_reaction_toggle_witness :
    ([1].contains 1 = true) ∧
    (add_reaction [1] (∅ : Finset Rxn) 1 2 "👍" = .ok (toggle_reaction ∅ 1 2 "👍") ∧
      ((1, 2, "👍") ∈ (toggle_reaction (∅ : Finset Rxn) 1 2 "👍").2 ↔
        (1, 2, "👍") ∉ (∅ : Finset Rxn)) ∧
      ((toggle_reaction (∅ : Finset Rxn) 1 2 "👍").1 = "added" ↔
        (1, 2, "👍") ∉ (∅ : Finset Rxn)) ∧
      add_reaction [1] (toggle_reaction (∅ : Finset Rxn) 1 2 "👍").2 1 2 "👍"
        = .ok (toggle_reaction (toggle_reaction (∅ : Finset Rxn) 1 2 "👍").2 1 2 "👍") ∧
      (toggle_reaction (toggle_reaction (∅ : Finset Rxn) 1 2 "👍").2 1 2 "👍").2 = ∅) :=
  ⟨by decide, C8_reaction_toggle [1] ∅ 1 2 "👍" (by decide)⟩

/-- C9.  When no user row matches the target id, `subscribeStatus` replies
with the 404 error and nevertheless has already added the target to the
session's subscription set (the insertion precedes the lookup and is not
undone), so any later `broadcast_status_change` for that id reaches this
session. -/
theorem C9_subscribeStatus_mutates_before_check (users : List UserRec) (subs : Finset Nat)
    (target : Nat) (connections : List (Nat × Finset Nat)) (ws : Nat)
    (h1 : users.find? (fun u => u.id == target) = none)
    (h2 : (ws, (subscribeStatus users subs target).1) ∈ connections) :
    (subscribeStatus users subs target).2 = .error (404, "User not found") ∧
    target ∈ (subscribeStatus users subs target).1 ∧
    ws ∈ broadcast_status_recipients connections target := by
  have hfst : (subscribeStatus users subs target).1 = insert target subs := by
    simp only [subscribeStatus, h1]
  refine ⟨by simp only [subscribeStatus, h1], ?_, ?_⟩
  · rw [hfst]
    exact Finset.mem_insert_self _ _
  · unfold broadcast_status_recipients
    refine List.mem_map.mpr ⟨(ws, (subscribeStatus users subs target).1),
      List.mem_filter.mpr ⟨h2, ?_⟩, rfl⟩
    rw [hfst]
    exact decide_eq_true (Finset.mem_insert_self _ _)

/-- C9 witness: a session (handle 3) subscribing to the non-existent user
9 gets the 404 reply, keeps the subscription, and is a recipient of
status broadcasts for user 9. -/
theorem C9_subscribeStatus_witness :
    (([] : List UserRec).find? (fun u => u.id == 9) = none) ∧
    ((3, (subscribeStatus [] (∅ : Finset Nat) 9).1) ∈ [(3, insert 9 (∅ : Finset Nat))]) ∧
    ((subscribeStatus [] (∅ : Finset Nat) 9).2 = .error (404, "User not found") ∧
      9 ∈ (subscribeStatus [] (∅ : Finset Nat) 9).1 ∧
      3 ∈ broadcast_status_recipients [(3, insert 9 (∅ : Finset Nat))] 9) :=
  ⟨rfl, by decide,
    C9_subscribeStatus_mutates_before_check [] ∅ 9 [(3, insert 9 ∅)] 3 rfl (by decide)⟩

/-- 830 ampersands: 830 ≤ 4096 raw characters whose escaped form has
4150 > 4096 characters. -/
def amp_content : String := String.mk (List.replicate 830 '&')

/-- A profane message whose escaped form also exceeds the length bound. -/
def long_profane_content : String := "сука" ++ amp_content

/-- Dropping a predicate that fails on `a` leaves a replicate intact. -/
theorem dropWhile_replicate_of_neg {p : Char → Bool} {a : Char} (h : p a = false) (n : Nat) :
    (List.replicate n a).dropWhile p = List.replicate n a := by
  cases n with
  | zero => rfl
  | succ k => simp [List.replicate_succ, List.dropWhile_cons, h]

/-- Dropping a predicate that fails on `a` leaves a non-empty replicate
followed by anything intact. -/
theorem dropWhile_replicate_append_of_neg {p : Char → Bool} {a : Char} (h : p a = false)
    (n : Nat) (hn : n ≠ 0) (l : List Char) :
    (List.replicate n a ++ l).dropWhile p = List.replicate n a ++ l := by
  cases n with
  | zero => exact absurd rfl hn
  | succ k => simp [List.replicate_succ, List.cons_append, List.dropWhile_cons, h]

/-- `py_strip` fixes a string whose two ends survive the whitespace
test. -/
theorem py_strip_eq_self {s : String} (h1 : s.data.dropWhile py_is_space = s.data)
    (h2 : s.data.reverse.dropWhile py_is_space = s.data.reverse) : py_strip s = s := by
  unfold py_strip
  rw [h1, h2, List.reverse_reverse]

/-- Stripping leaves the ampersand run unchanged. -/
theorem py_strip_amp_content : py_strip amp_content = amp_content := by
  refine py_strip_eq_self ?_ ?_
  · exact dropWhile_replicate_of_neg (by decide) 830
  · rw [show (amp_content.data.reverse : List Char) = List.replicate 830 '&' from
      List.reverse_replicate 830 '&']
    exact dropWhile_replicate_of_neg (by decide) 830

/-- The character data of the long profane message. -/
theorem long_profane_content_data :
    long_profane_content.data = ['с', 'у', 'к', 'а'] ++ List.replicate 830 '&' := rfl

/-- Stripping leaves the long profane message unchanged. -/
theorem py_strip_long_profane : py_strip long_profane_content = long_profane_content := by
  refine py_strip_eq_self ?_ ?_
  · rw [long_profane_content_data]
    simp [List.cons_append, List.dropWhile_cons, show py_is_space 'с' = false from by decide]
  · rw [long_profane_content_data, List.reverse_append, List.reverse_replicate]
    exact dropWhile_replicate_append_of_neg (by decide) 830 (by norm_num) _

/-- Escaping a run of `n` ampersands yields `5 * n` characters. -/
theorem length_flatMap_amp (n : Nat) :
    ((List.replicate n '&').flatMap html_escape_char).length = 5 * n := by
  induction n with
  | zero => rfl
  | succ k ih =>
    rw [List.replicate_succ, List.flatMap_cons, List.length_append, ih,
      show (html_escape_char '&').length = 5 from rfl]
    omega

/-- The escaped ampersand run has 4150 characters. -/
theorem length_html_escape_amp : (html_escape amp_content).length = 4150 := by
  show ((List.replicate 830 '&').flatMap html_escape_char).length = 4150
  rw [length_flatMap_amp]

/-- The escaped long profane message has 4154 characters. -/
theorem length_html_escape_long_profane :
    (html_escape long_profane_content).length = 4154 := by
  show (long_profane_content.data.flatMap html_escape_char).length = 4154
  rw [long_profane_content_data]
  rw [show (['с', 'у', 'к', 'а'] ++ List.replicate 830 '&' : List Char)
      = 'с' :: 'у' :: 'к' :: 'а' :: List.replicate 830 '&' from rfl]
  rw [List.flatMap_cons, List.flatMap_cons, List.flatMap_cons, List.flatMap_cons]
  simp only [List.length_append, length_flatMap_amp,
    show (html_escape_char 'с').length = 1 from rfl,
    show (html_escape_char 'у').length = 1 from rfl,
    show (html_escape_char 'к').length = 1 from rfl,
    show (html_escape_char 'а').length = 1 from rfl]

/-- C10 counterexample.  A profane message whose escaped form exceeds 4096
characters is rejected as profanity (422), not with the 400 "Message too
long" error, so "rejects with 400 Message too long exactly when the
escaped stripped content exceeds 4096 characters" fails in the
right-to-left direction. -/
theorem C10_too_long_counterexample :
    send_message_internal bp_none true long_profane_content = .profanityRejected ∧
    4096 < (html_escape (py_strip long_profane_content)).length ∧
    (SendResult.profanityRejected ≠ SendResult.tooLong) := by
  refine ⟨by decide, ?_, by decide⟩
  rw [py_strip_long_profane, length_html_escape_long_profane]
  norm_num

/-- C10 (amended).  Send and edit reject with 400 "Message too long"
exactly when the content passes every earlier check (reply target found,
non-empty after stripping, no profanity; for edit: message found and actor
is the author) and the HTML-escaped stripped content exceeds 4096
characters; and since escaping expands '&', '<', '>' there are raw
contents of length at most 4096 that are rejected, e.g. 830 ampersands. -/
theorem C10_message_too_long_amended :
    (∀ (bp : String → Bool) (reply_ok : Bool) (content : String),
        send_message_internal bp reply_ok content = .tooLong ↔
          (reply_ok = true ∧ py_strip content ≠ "" ∧
            contains_profanity bp (py_strip content) = false ∧
            4096 < (html_escape (py_strip content)).length)) ∧
    (∀ (bp : String → Bool) (message_found is_author : Bool) (content : String),
        edit_message_internal bp message_found is_author content = .tooLong ↔
          (message_found = true ∧ is_author = true ∧ py_strip content ≠ "" ∧
            contains_profanity bp (py_strip content) = false ∧
            4096 < (html_escape (py_strip content)).length)) ∧
    (amp_content.length ≤ 4096 ∧
      send_message_internal bp_none true amp_content = .tooLong ∧
      edit_message_internal bp_none true true amp_content = .tooLong) := by
  have hne : py_strip amp_content ≠ "" := by
    rw [py_strip_amp_content]
    decide
  have hcp : contains_profanity bp_none (py_strip amp_content) = false := by
    rw [py_strip_amp_content]
    decide
  have hlong : 4096 < (html_escape (py_strip amp_content)).length := by
    rw [py_strip_amp_content, length_html_escape_amp]
    norm_num
  have hsend : ∀ (bp : String → Bool) (reply_ok : Bool) (content : String),
      send_message_internal bp reply_ok content = .tooLong ↔
        (reply_ok = true ∧ py_strip content ≠ "" ∧
          contains_profanity bp (py_strip content) = false ∧
          4096 < (html_escape (py_strip content)).length) := by
    intro bp reply_ok content
    cases reply_ok with
    | false => simp [send_message_internal]
    | true =>
      by_cases he : py_strip content = ""
      · simp [send_message_internal, he]
      · cases hp : contains_profanity bp (py_strip content) with
        | true => simp [send_message_internal, he, hp]
        | false =>
          by_cases hl : 4096 < (html_escape (py_strip content)).length
          · simp [send_message_internal, he, hp, hl]
          · simp [send_message_internal, he, hp, hl]
  have hedit : ∀ (bp : String → Bool) (message_found is_author : Bool) (content : String),
      edit_message_internal bp message_found is_author content = .tooLong ↔
        (message_found = true ∧ is_author = true ∧ py_strip content ≠ "" ∧
          contains_profanity bp (py_strip content) = false ∧
          4096 < (html_escape (py_strip content)).length) := by
    intro bp message_found is_author content
    cases message_found with
    | false => simp [edit_message_internal]
    | true =>
      cases is_author with
      | false => simp [edit_message_internal]
      | true =>
        by_cases he : py_strip content = ""
        · simp [edit_message_internal, he]
        · cases hp : contains_profanity bp (py_strip content) with
          | true => simp [edit_message_internal, he, hp]
          | false =>
            by_cases hl : 4096 < (html_escape (py_strip content)).length
            · simp [edit_message_internal, he, hp, hl]
            · simp [edit_message_internal, he, hp, hl]
  exact ⟨hsend, hedit, by decide,
    (hsend bp_none true amp_content).mpr ⟨rfl, hne, hcp, hlong⟩,
    (hedit bp_none true true amp_content).mpr ⟨rfl, rfl, hne, hcp, hlong⟩⟩

end FromChat
